import Mathlib

/-!
Shallow embedding of the board data model of the `checkers_ai` repository
(`src/model/src/board/`): the value slot `Space<T>` (space.rs), the
trait-based value slot `ContainerSpace<T>` with its fallible accessor
(spaces/container.rs), the always-empty slot `EmptySpace` (spaces/empty.rs),
and the `Board` aggregate (mod.rs).  Rust's in-place mutators are embedded as
pure state-passing functions returning the new slot value; `Result<T, E>`
becomes `Except E T`; the `Display` impls become functions to `String`
parameterised by the element's own rendering function.
-/

namespace CheckersModel

/-- Embeds `Space<T>` of space.rs: a struct with the single field
`element: Option<T>`. -/
structure Space (T : Type) where
  element : Option T
deriving DecidableEq, Repr

/-- Embeds `Space::new`: `Space { element: None }`. -/
def Space.new (T : Type) : Space T :=
  { element := none }

/-- Embeds `Space::with_element`: `Space { element: Some(element) }`. -/
def Space.with_element (element : T) : Space T :=
  { element := some element }

/-- Embeds `Space::is_empty`: `self.element().is_none()` (the accessor
`element()` returns the field). -/
def Space.is_empty (s : Space T) : Bool :=
  s.element.isNone

/-- Embeds `Space::has_element`: `self.element().is_some()`. -/
def Space.has_element (s : Space T) : Bool :=
  s.element.isSome

/-- Embeds `Space::set_optional_element`: `self.element = option`. -/
def Space.set_optional_element (s : Space T) (option : Option T) : Space T :=
  { s with element := option }

/-- Embeds `Space::set_element`: `self.set_optional_element(Some(element))`. -/
def Space.set_element (s : Space T) (element : T) : Space T :=
  s.set_optional_element (some element)

/-- Embeds `Space::clear`: `self.set_optional_element(None)`. -/
def Space.clear (s : Space T) : Space T :=
  s.set_optional_element none

/-- Embeds `impl Display for Space<T>`: writes `|{}|` around the element's
rendering, or a single space when empty.  `toStr` stands for the element
type's `Display` implementation. -/
def Space.fmt (toStr : T → String) (s : Space T) : String :=
  "|" ++ (match s.element with
          | some piece => toStr piece
          | none => " ") ++ "|"

/-- Embeds `impl From<Option<T>> for Space<T>`: `Space { element: option }`. -/
def Space.fromOption (option : Option T) : Space T :=
  { element := option }

/-- Embeds `NoElementError` of container.rs: a fieldless unit struct. -/
structure NoElementError where
deriving DecidableEq, Repr

/-- Embeds `impl Display for NoElementError`. -/
def NoElementError.fmt (_ : NoElementError) : String :=
  "The space did not have an element"

/-- Embeds `ContainerSpace<T>` of container.rs: a struct with the single
field `element: Option<T>`.  The field is named `elt` here because the
public fallible accessor `element()` takes the name `element` in Lean. -/
structure ContainerSpace (T : Type) where
  elt : Option T
deriving DecidableEq, Repr

/-- Embeds `impl Space<T> for ContainerSpace<T>`, `fn new`:
`ContainerSpace { element: None }`. -/
def ContainerSpace.new (T : Type) : ContainerSpace T :=
  { elt := none }

/-- Embeds `ContainerSpace::with_element`:
`ContainerSpace { element: Some(element) }`. -/
def ContainerSpace.with_element (element : T) : ContainerSpace T :=
  { elt := some element }

/-- Embeds `ContainerSpace::as_option`: returns (a reference to) the
`element` field. -/
def ContainerSpace.as_option (s : ContainerSpace T) : Option T :=
  s.elt

/-- Embeds the fallible accessor `ContainerSpace::element`
(`Result<T, NoElementError>`): `Ok(*p)` when `as_option` is `Some(p)`,
`Err(NoElementError)` when it is `None`. -/
def ContainerSpace.element (s : ContainerSpace T) : Except NoElementError T :=
  match s.as_option with
  | some p => Except.ok p
  | none => Except.error {}

/-- Embeds `ContainerSpace::is_empty`: `self.as_option().is_none()`. -/
def ContainerSpace.is_empty (s : ContainerSpace T) : Bool :=
  s.as_option.isNone

/-- Embeds `ContainerSpace::has_element`: `self.as_option().is_some()`. -/
def ContainerSpace.has_element (s : ContainerSpace T) : Bool :=
  s.as_option.isSome

/-- Embeds `ContainerSpace::set_optional_element`: `self.element = option`. -/
def ContainerSpace.set_optional_element (s : ContainerSpace T)
    (option : Option T) : ContainerSpace T :=
  { s with elt := option }

/-- Embeds `ContainerSpace::set_element`:
`self.set_optional_element(Some(element))`. -/
def ContainerSpace.set_element (s : ContainerSpace T) (element : T) :
    ContainerSpace T :=
  s.set_optional_element (some element)

/-- Embeds `ContainerSpace::clear`: `self.set_optional_element(None)`. -/
def ContainerSpace.clear (s : ContainerSpace T) : ContainerSpace T :=
  s.set_optional_element none

/-- Embeds `impl Display for ContainerSpace<T>`: writes `|{}|` around the
element's rendering, or a single space when empty. -/
def ContainerSpace.fmt (toStr : T → String) (s : ContainerSpace T) : String :=
  "|" ++ (match s.as_option with
          | some piece => toStr piece
          | none => " ") ++ "|"

/-- Embeds `impl From<Option<T>> for ContainerSpace<T>`:
`ContainerSpace { element: option }`. -/
def ContainerSpace.fromOption (option : Option T) : ContainerSpace T :=
  { elt := option }

/-- Embeds `EmptySpace` of empty.rs: a fieldless struct. -/
structure EmptySpace where
deriving DecidableEq, Repr

/-- Embeds `EmptySpace::new` (also the `impl Space<T> for EmptySpace`
instance of `new`): `EmptySpace {}`. -/
def EmptySpace.new : EmptySpace :=
  {}

/-- Embeds `impl Display for EmptySpace`: `f.write_str("| |")`. -/
def EmptySpace.fmt (_ : EmptySpace) : String :=
  "| |"

/-- Modelled from the spec: the `OutOfBounds` error of coordinate-addressed
board access.  mod.rs declares no error type; the spec names this kind in
section 7. -/
structure OutOfBoundsError where
deriving DecidableEq, Repr

/-- Modelled from the spec: the `DimensionMismatch` error of board
construction from a matrix.  mod.rs declares no error type; the spec names
this kind in section 7. -/
structure DimensionMismatchError where
deriving DecidableEq, Repr

/-- Embeds the `Board<'a, T, SIZE>` struct of mod.rs, whose sole field is a
`SIZE x SIZE` matrix of spaces.  The fixed-size Rust array
`[[...; SIZE]; SIZE]` is embedded as a list of lists carrying the dimension
invariants; cells are value slots, as the spec's board operations require
the full read/write slot contract. -/
structure Board (T : Type) (SIZE : Nat) where
  matrix : List (List (Space T))
  hrows : matrix.length = SIZE
  hcols : ∀ row ∈ matrix, row.length = SIZE

/-- Modelled from the spec: "Get a read-only view of the Space at row `r`,
column `c`; both must satisfy `0 <= r < SIZE` and `0 <= c < SIZE`;
out-of-range access fails with OutOfBounds (no silent clamping, no
wraparound)."  mod.rs has no accessor method. -/
def Board.get (b : Board T SIZE) (r c : Nat) :
    Except OutOfBoundsError (Space T) :=
  if h : r < SIZE ∧ c < SIZE then
    Except.ok ((b.matrix.get ⟨r, by rw [b.hrows]; exact h.1⟩).get
      ⟨c, by rw [b.hcols _ (List.get_mem _ _ _)]; exact h.2⟩)
  else
    Except.error {}

/-- Modelled from the spec: "Construct a board from a caller-supplied matrix
of Spaces (dimensions must match `SIZE x SIZE`; mismatched dimensions are a
construction-time failure, DimensionMismatch)."  mod.rs has no constructor
method. -/
def Board.fromMatrix (SIZE : Nat) (m : List (List (Space T))) :
    Except DimensionMismatchError (Board T SIZE) :=
  if h : m.length = SIZE ∧ ∀ row ∈ m, row.length = SIZE then
    Except.ok ⟨m, h.1, h.2⟩
  else
    Except.error {}

/-- The state mapping underlying the equivalence of the two value-slot
realizations: a `ContainerSpace<T>` and the `Space<T>` holding the same
optional element. -/
def ContainerSpace.toSpace (s : ContainerSpace T) : Space T :=
  { element := s.as_option }

/-- A mutating call on a value slot: one of the three mutators the two
value-slot realizations share. -/
inductive SlotOp (T : Type) where
  | set_optional_element (v : Option T)
  | set_element (e : T)
  | clear
deriving DecidableEq, Repr

/-- Runs a sequence of mutating calls on a `Space<T>`, left to right. -/
def Space.run (s : Space T) : List (SlotOp T) → Space T
  | [] => s
  | SlotOp.set_optional_element v :: rest => (s.set_optional_element v).run rest
  | SlotOp.set_element e :: rest => (s.set_element e).run rest
  | SlotOp.clear :: rest => s.clear.run rest

/-- Runs a sequence of mutating calls on a `ContainerSpace<T>`, left to
right. -/
def ContainerSpace.run (s : ContainerSpace T) : List (SlotOp T) → ContainerSpace T
  | [] => s
  | SlotOp.set_optional_element v :: rest => (s.set_optional_element v).run rest
  | SlotOp.set_element e :: rest => (s.set_element e).run rest
  | SlotOp.clear :: rest => s.clear.run rest

/-- A concrete 2 x 2 board used to instantiate the board theorems. -/
def sampleBoard : Board Nat 2 :=
  ⟨[[Space.new Nat, Space.with_element 1], [Space.with_element 2, Space.new Nat]],
   rfl, by decide⟩

/-!
## Claim theorems
-/

/-- Claim C1: for every slot `s` of the value-slot variant
(`ContainerSpace<T>`), the fallible accessor `element()` fails with the
`NoElement` error if and only if `s.is_empty()` is true; when `s` is
occupied with element `e`, `element()` succeeds and returns `e`. -/
theorem claim_C1 (T : Type) (s : ContainerSpace T) :
    (s.element = Except.error NoElementError.mk ↔ s.is_empty = true) ∧
    (∀ e : T, s.as_option = some e → s.element = Except.ok e) := by
  obtain ⟨o⟩ := s
  constructor
  · cases o <;>
      simp [ContainerSpace.element, ContainerSpace.as_option,
        ContainerSpace.is_empty]
  · intro e he
    simp only [ContainerSpace.as_option] at he
    simp [ContainerSpace.element, ContainerSpace.as_option, he]

/-- Witness for C1 at concrete slots: the occupied slot holding `5` yields
`Ok 5`, and on the freshly constructed empty slot the error condition and
emptiness agree. -/
theorem claim_C1_witness :
    (ContainerSpace.mk (some 5) : ContainerSpace Nat).element = Except.ok 5 ∧
    ((ContainerSpace.new Nat).element = Except.error NoElementError.mk ↔
      (ContainerSpace.new Nat).is_empty = true) :=
  ⟨(claim_C1 Nat (ContainerSpace.mk (some 5))).2 5 rfl,
   (claim_C1 Nat (ContainerSpace.new Nat)).1⟩

/-- Claim C4: for every element type `T` and optional value `v`,
constructing a slot from `v` and reading it back through the optional view
returns exactly `v`, in both value-slot realizations. -/
theorem claim_C4 (T : Type) (v : Option T) :
    (Space.fromOption v).element = v ∧
    (ContainerSpace.fromOption v).as_option = v :=
  ⟨rfl, rfl⟩

/-- Claim C5: after `set_element(e)` the slot has an element and the
fallible accessor returns `e` (for `Space<T>`, the optional accessor
returns `Some e`), regardless of the prior state. -/
theorem claim_C5 (T : Type) (s : Space T) (c : ContainerSpace T) (e : T) :
    ((s.set_element e).has_element = true ∧
      (s.set_element e).element = some e) ∧
    ((c.set_element e).has_element = true ∧
      (c.set_element e).element = Except.ok e) :=
  ⟨⟨rfl, rfl⟩, ⟨rfl, rfl⟩⟩

/-- Claim C6: after `clear()` the slot is empty and the fallible accessor
fails with the `NoElement` error (for `Space<T>`, the optional accessor
returns `None`), regardless of the prior state. -/
theorem claim_C6 (T : Type) (s : Space T) (c : ContainerSpace T) :
    (s.clear.is_empty = true ∧ s.clear.element = none) ∧
    (c.clear.is_empty = true ∧
      c.clear.element = Except.error NoElementError.mk) :=
  ⟨⟨rfl, rfl⟩, ⟨rfl, rfl⟩⟩

/-- Claim C7: in every state, `is_empty` and `has_element` return opposite
booleans, in both value-slot realizations. -/
theorem claim_C7 (T : Type) (s : Space T) (c : ContainerSpace T) :
    s.is_empty = !s.has_element ∧ c.is_empty = !c.has_element := by
  obtain ⟨o⟩ := s
  obtain ⟨p⟩ := c
  cases o <;> cases p <;>
    simp [Space.is_empty, Space.has_element, ContainerSpace.is_empty,
      ContainerSpace.has_element, ContainerSpace.as_option]

/-- Claim C9: `clear()` twice leaves the slot empty after each call, and
`set_element(e)` twice with the same `e` leaves the slot occupied with `e`
after each call; both mutators are idempotent, in both value-slot
realizations. -/
theorem claim_C9 (T : Type) (s : Space T) (c : ContainerSpace T) (e : T) :
    (s.clear.is_empty = true ∧ s.clear.clear.is_empty = true ∧
      s.clear.clear = s.clear) ∧
    ((s.set_element e).element = some e ∧
      ((s.set_element e).set_element e).element = some e ∧
      (s.set_element e).set_element e = s.set_element e) ∧
    (c.clear.is_empty = true ∧ c.clear.clear.is_empty = true ∧
      c.clear.clear = c.clear) ∧
    ((c.set_element e).as_option = some e ∧
      ((c.set_element e).set_element e).as_option = some e ∧
      (c.set_element e).set_element e = c.set_element e) :=
  ⟨⟨rfl, rfl, rfl⟩, ⟨rfl, rfl, rfl⟩, ⟨rfl, rfl, rfl⟩, ⟨rfl, rfl, rfl⟩⟩

/-- Claim C8: an occupied slot renders as `|<element-as-text>|`, an empty
slot renders as `| |` (pipe, single space, pipe), in both value-slot
realizations; the always-empty slot variant always renders as `| |`. -/
theorem claim_C8 (T : Type) (toStr : T → String) (s : Space T)
    (c : ContainerSpace T) (es : EmptySpace) (e : T) :
    (s.element = some e → s.fmt toStr = "|" ++ toStr e ++ "|") ∧
    (s.element = none → s.fmt toStr = "| |") ∧
    (c.as_option = some e → c.fmt toStr = "|" ++ toStr e ++ "|") ∧
    (c.as_option = none → c.fmt toStr = "| |") ∧
    es.fmt = "| |" := by
  refine ⟨fun h => ?_, fun h => ?_, fun h => ?_, fun h => ?_, rfl⟩
  · simp [Space.fmt, h]
  · simp [Space.fmt, h]
  · simp only [ContainerSpace.as_option] at h
    simp [ContainerSpace.fmt, ContainerSpace.as_option, h]
  · simp only [ContainerSpace.as_option] at h
    simp [ContainerSpace.fmt, ContainerSpace.as_option, h]

/-- Witness for C8 at concrete slots: the value `5` renders as `"|5|"` and
the empty slots render as `"| |"`. -/
theorem claim_C8_witness :
    (Space.mk (some 5) : Space Nat).fmt (fun n => toString n) = "|5|" ∧
    (Space.mk none : Space Nat).fmt (fun n => toString n) = "| |" ∧
    (ContainerSpace.mk (some 5) : ContainerSpace Nat).fmt
      (fun n => toString n) = "|5|" ∧
    (ContainerSpace.mk none : ContainerSpace Nat).fmt
      (fun n => toString n) = "| |" ∧
    EmptySpace.new.fmt = "| |" := by
  have h := claim_C8 Nat (fun n => toString n) (Space.mk (some 5))
    (ContainerSpace.mk (some 5)) EmptySpace.new 5
  have h2 := claim_C8 Nat (fun n => toString n) (Space.mk none)
    (ContainerSpace.mk none) EmptySpace.new 5
  exact ⟨h.1 rfl, h2.2.1 rfl, h.2.2.1 rfl, h2.2.2.2.1 rfl, h.2.2.2.2⟩

/-- Claim C2: reading the space at `(r, c)` on a board of size `N` succeeds
whenever `r < N` and `c < N`, and fails with the `OutOfBounds` error for
every coordinate outside that range, without clamping or wraparound. -/
theorem claim_C2 (T : Type) (SIZE : Nat) (b : Board T SIZE) (r c : Nat) :
    (r < SIZE → c < SIZE → ∃ s, b.get r c = Except.ok s) ∧
    (¬(r < SIZE ∧ c < SIZE) → b.get r c = Except.error OutOfBoundsError.mk) := by
  constructor
  · intro hr hc
    unfold Board.get
    rw [dif_pos ⟨hr, hc⟩]
    exact ⟨_, rfl⟩
  · intro h
    unfold Board.get
    rw [dif_neg h]

/-- Witness for C2 on the concrete 2 x 2 board: reading `(N-1, N-1)`
succeeds while `(N, 0)` and `(0, N)` fail with `OutOfBounds`. -/
theorem claim_C2_witness :
    (∃ s, sampleBoard.get 1 1 = Except.ok s) ∧
    sampleBoard.get 2 0 = Except.error OutOfBoundsError.mk ∧
    sampleBoard.get 0 2 = Except.error OutOfBoundsError.mk :=
  ⟨(claim_C2 Nat 2 sampleBoard 1 1).1 (by decide) (by decide),
   (claim_C2 Nat 2 sampleBoard 2 0).2 (by decide),
   (claim_C2 Nat 2 sampleBoard 0 2).2 (by decide)⟩

/-- Claim C3: constructing a `Board<_, N>` from a caller-supplied matrix
succeeds when the matrix is exactly `N x N`, yielding a board whose every
cell equals the corresponding input cell; for any other dimensions the
construction fails with the `DimensionMismatch` error and no board is
produced. -/
theorem claim_C3 (T : Type) (SIZE : Nat) (m : List (List (Space T))) :
    (∀ (h1 : m.length = SIZE) (h2 : ∀ row ∈ m, row.length = SIZE),
      Board.fromMatrix SIZE m = Except.ok (Board.mk m h1 h2) ∧
      ∀ (r c : Nat) (row : List (Space T)) (x : Space T),
        m[r]? = some row → row[c]? = some x →
        (Board.mk m h1 h2).get r c = Except.ok x) ∧
    (¬(m.length = SIZE ∧ ∀ row ∈ m, row.length = SIZE) →
      Board.fromMatrix SIZE m = Except.error DimensionMismatchError.mk) := by
  constructor
  · intro h1 h2
    constructor
    · unfold Board.fromMatrix
      rw [dif_pos ⟨h1, h2⟩]
    · intro r c row x hrow hx
      rcases List.getElem?_eq_some.mp hrow with ⟨hr, hrow2⟩
      rcases List.getElem?_eq_some.mp hx with ⟨hc, hx2⟩
      have hmem : row ∈ m := hrow2 ▸ List.getElem_mem hr
      have hrS : r < SIZE := h1 ▸ hr
      have hcS : c < SIZE := (h2 row hmem) ▸ hc
      unfold Board.get
      rw [dif_pos ⟨hrS, hcS⟩]
      congr 1
      simp only [List.get_eq_getElem]
      subst hrow2
      exact hx2
  · intro h
    unfold Board.fromMatrix
    rw [dif_neg h]

/-- Witness for C3 at concrete matrices: a `1 x 1` matrix constructs a
board returning its cell at `(0, 0)`, while the empty matrix fails with
`DimensionMismatch` for `SIZE = 1`. -/
theorem claim_C3_witness :
    Board.fromMatrix 1 [[Space.with_element (7 : Nat)]] =
      Except.ok (Board.mk [[Space.with_element (7 : Nat)]] rfl (by decide)) ∧
    (Board.mk [[Space.with_element (7 : Nat)]] rfl (by decide) :
        Board Nat 1).get 0 0 = Except.ok (Space.with_element 7) ∧
    Board.fromMatrix 1 ([] : List (List (Space Nat))) =
      Except.error DimensionMismatchError.mk := by
  have h := (claim_C3 Nat 1 [[Space.with_element 7]]).1 rfl (by decide)
  exact ⟨h.1,
    h.2 0 0 [Space.with_element 7] (Space.with_element 7) rfl rfl,
    (claim_C3 Nat 1 []).2 (by decide)⟩

/-- Running the same mutating calls on a `ContainerSpace<T>` and on the
`Space<T>` holding the same optional element keeps the states related by
`toSpace`. -/
theorem run_toSpace (T : Type) (s : ContainerSpace T)
    (ops : List (SlotOp T)) : (s.run ops).toSpace = s.toSpace.run ops := by
  induction ops generalizing s with
  | nil => rfl
  | cons op rest ih =>
    cases op with
    | set_optional_element v => exact ih _
    | set_element e => exact ih _
    | clear => exact ih _

/-- Claim C10: the two value-slot realizations, `Space<T>` and
`ContainerSpace<T>`, are behaviorally equivalent on all shared operations:
the state mapping `toSpace` is a bijection that commutes with `new`,
`with_element`, conversion from an optional, the optional view, `is_empty`,
`has_element`, `set_optional_element`, `set_element`, `clear`, `Display`
rendering, and every sequence of mutating calls. -/
theorem claim_C10 (T : Type) (toStr : T → String) (s : ContainerSpace T)
    (e : T) (v : Option T) (ops : List (SlotOp T)) :
    (ContainerSpace.new T).toSpace = Space.new T ∧
    (ContainerSpace.with_element e).toSpace = Space.with_element e ∧
    (ContainerSpace.fromOption v).toSpace = Space.fromOption v ∧
    s.as_option = s.toSpace.element ∧
    s.is_empty = s.toSpace.is_empty ∧
    s.has_element = s.toSpace.has_element ∧
    (s.set_optional_element v).toSpace = s.toSpace.set_optional_element v ∧
    (s.set_element e).toSpace = s.toSpace.set_element e ∧
    s.clear.toSpace = s.toSpace.clear ∧
    s.fmt toStr = s.toSpace.fmt toStr ∧
    (s.run ops).toSpace = s.toSpace.run ops ∧
    Function.Bijective (ContainerSpace.toSpace (T := T)) := by
  refine ⟨rfl, rfl, rfl, rfl, rfl, rfl, rfl, rfl, rfl, rfl,
    run_toSpace T s ops, ?_, ?_⟩
  · intro a b h
    obtain ⟨o1⟩ := a
    obtain ⟨o2⟩ := b
    simpa [ContainerSpace.toSpace, ContainerSpace.as_option,
      Space.mk.injEq, ContainerSpace.mk.injEq] using h
  · intro sp
    obtain ⟨o⟩ := sp
    exact ⟨⟨o⟩, rfl⟩

/-- Witness for C10 at concrete inputs: injectivity of the state mapping
applied at the slot holding `2`, and the commuting of a concrete two-call
sequence on the slot holding `3`. -/
theorem claim_C10_witness :
    (ContainerSpace.mk (some 2) : ContainerSpace Nat) =
      ContainerSpace.mk (some 2) ∧
    ((ContainerSpace.mk (some 3) : ContainerSpace Nat).run
        [SlotOp.set_element 4, SlotOp.clear]).toSpace =
      (ContainerSpace.mk (some 3) : ContainerSpace Nat).toSpace.run
        [SlotOp.set_element 4, SlotOp.clear] := by
  have h := claim_C10 Nat (fun n => toString n) (ContainerSpace.mk (some 3))
    4 none [SlotOp.set_element 4, SlotOp.clear]
  exact ⟨h.2.2.2.2.2.2.2.2.2.2.2.1 rfl, h.2.2.2.2.2.2.2.2.2.2.1⟩

end CheckersModel
